import Mathlib

/-!
# Snowflake particle field of `src/main.js`

A shallow embedding of the snowflake system of the winter scene
(`createSnowflake`, `updateSnowflakes`, the start-up population loop,
`updateSnowflakeCount` and the parameter-panel handlers), with the properties
the specification states about it.

Modelling conventions.

* JavaScript numbers are modelled by exact rationals `ℚ`: the source only
  adds, subtracts, multiplies by the constant `10` and compares with `0`, and
  the specification assumes finite values throughout.  `options.snowflakeCount`
  is an integer (`Int`), so that a negative count is expressible.
* `Math.random()` is an explicit stream `rand : Nat → ℚ` together with the
  number `cursor` of draws already consumed.
* JavaScript objects have an identity.  Every `Object3D` that enters the scene
  carries an `id`, handed out by the allocation counter `nextId`;
  `scene.children` is the list of identities in insertion order.  The
  `snowflakes` array holds the meshes themselves, so a mutation through the
  array is seen by the scene, which refers to the same identity.
* The behaviour of the rendering library that the code relies on is taken from
  its documented semantics: a freshly constructed `Mesh` has
  `castShadow = receiveShadow = false` and no parent, `scene.add` of a
  parentless object pushes it to the end of `children`, `scene.remove` deletes
  the first occurrence of the object in `children` if there is one.
-/

namespace Snow

/-- The `position` of an `Object3D`. -/
structure Vector3 where
  x : ℚ
  y : ℚ
  z : ℚ
deriving DecidableEq

/-- A `THREE.Mesh` with a `SphereGeometry(radius, 6, 6)`, as built in `createSnowflake`. -/
structure Mesh where
  id : Nat
  radius : ℚ
  position : Vector3
  castShadow : Bool
  receiveShadow : Bool
deriving DecidableEq

/-- The `options` object bound to the parameter panel (lines 121-128). -/
structure Options where
  snowflakeSpeed : ℚ
  snowflakeSize : ℚ
  snowflakeCount : Int
  ambientLightIntensity : ℚ
  directionalLightIntensity : ℚ
  shadowsEnabled : Bool
deriving DecidableEq

/-- The mutable module-level state the snowflake code reads and writes. -/
structure World where
  /-- The array `scene.children`, by object identity. -/
  children : List Nat
  /-- The `snowflakes` array. -/
  snowflakes : List Mesh
  options : Options
  /-- The stream `Math.random()` draws from. -/
  rand : Nat → ℚ
  /-- Number of draws consumed so far. -/
  cursor : Nat
  /-- Identity given to the next constructed object. -/
  nextId : Nat
  /-- The flag `renderer.shadowMap.enabled`. -/
  shadowMapEnabled : Bool
  /-- The flag `directionalLight.castShadow`. -/
  directionalLightCastShadow : Bool
  /-- The flag `plane.receiveShadow`. -/
  planeReceiveShadow : Bool
  /-- The value of `ambientLight.intensity`. -/
  ambientIntensity : ℚ
  /-- The value of `directionalLight.intensity`. -/
  directionalIntensity : ℚ

/-- The call `Math.random()`: the next value of the stream; the cursor moves on by one. -/
def random (w : World) : ℚ × World :=
  (w.rand w.cursor, { w with cursor := w.cursor + 1 })

/-- The call `scene.add(object)` for an object without a parent: pushed at the end of `children`. -/
def sceneAdd (id : Nat) (w : World) : World :=
  { w with children := w.children ++ [id] }

/-- The call `scene.remove(object)`: the first occurrence of the object, if any, is spliced out. -/
def sceneRemove (id : Nat) (w : World) : World :=
  { w with children := w.children.erase id }

/-- The function `createSnowflake(size)` (lines 92-101).  The three arguments of `position.set` are
evaluated left to right, each with its own call of `Math.random()`.  The function body has
no `return`, so the call evaluates to `undefined`, rendered here as `none`. -/
def createSnowflake (size : ℚ) (w : World) : Option Mesh × World :=
  let id := w.nextId
  let w0 := { w with nextId := w.nextId + 1 }
  let (r1, w1) := random w0
  let (r2, w2) := random w1
  let (r3, w3) := random w2
  let snowflake : Mesh :=
    { id := id, radius := size,
      position := { x := r1 * 10 - 5, y := r2 * 10 + 1, z := r3 * 10 - 5 },
      castShadow := false, receiveShadow := false }
  let w4 := { w3 with snowflakes := w3.snowflakes ++ [snowflake] }
  (none, sceneAdd snowflake.id w4)

/-- The body of the `forEach` callback of `updateSnowflakes` (lines 105-108) on one
snowflake, threading the cursor of the random stream. -/
def fall (speed : ℚ) (rand : Nat → ℚ) (snowflake : Mesh) (cursor : Nat) : Mesh × Nat :=
  let s1 : Mesh :=
    { snowflake with
      position := { snowflake.position with y := snowflake.position.y - speed } }
  if s1.position.y < 0 then
    ({ s1 with position := { s1.position with y := rand cursor * 10 + 1 } }, cursor + 1)
  else
    (s1, cursor)

/-- The `forEach` of `updateSnowflakes`: the callback applied to the elements in order. -/
def fallAll (speed : ℚ) (rand : Nat → ℚ) : List Mesh → Nat → List Mesh × Nat
  | [], cursor => ([], cursor)
  | snowflake :: rest, cursor =>
    let r := fall speed rand snowflake cursor
    let rs := fallAll speed rand rest r.2
    (r.1 :: rs.1, rs.2)

/-- The function `updateSnowflakes(speed)` (lines 103-110). -/
def updateSnowflakes (speed : ℚ) (w : World) : World :=
  let r := fallAll speed w.rand w.snowflakes w.cursor
  { w with snowflakes := r.1, cursor := r.2 }

/-- The loop `for (let i = ...; i < count; i++) body` with an integer bound, started
at `i`. -/
def forLoop (count : Int) (body : World → World) (i : Int) (w : World) : World :=
  if i < count then forLoop count body (i + 1) (body w) else w
termination_by (count - i).toNat
decreasing_by omega

/-- The statements `snowflakes.forEach((snowflake) => scene.remove(snowflake));
snowflakes.length = 0;` shared by lines 132-133 and 140-141. -/
def clearSnowflakes (w : World) : World :=
  let w1 := w.snowflakes.foldl (fun acc snowflake => sceneRemove snowflake.id acc) w
  { w1 with snowflakes := [] }

/-- The function `updateSnowflakeCount()` (lines 131-135).  `createSnowflake` does not write
`options`, so the loop bound and the size read in every iteration are the values on entry. -/
def updateSnowflakeCount (w : World) : World :=
  let w1 := clearSnowflakes w
  forLoop w1.options.snowflakeCount
    (fun v => (createSnowflake v.options.snowflakeSize v).2) 0 w1

/-- The `onChange` handler of the `snowflakeSize` controller (lines 138-145). -/
def snowflakeSizeOnChange (value : ℚ) (w : World) : World :=
  let w1 := clearSnowflakes w
  forLoop w1.options.snowflakeCount (fun v => (createSnowflake value v).2) 0 w1

/-- The `onChange` handler of the `shadowsEnabled` controller (lines 153-161). -/
def shadowsEnabledOnChange (value : Bool) (w : World) : World :=
  { w with
    shadowMapEnabled := value
    directionalLightCastShadow := value
    planeReceiveShadow := value
    snowflakes := w.snowflakes.map
      (fun snowflake => { snowflake with castShadow := value, receiveShadow := value }) }

/-- The `onChange` handler of the `ambientLightIntensity` controller (lines 147-149). -/
def ambientLightOnChange (value : ℚ) (w : World) : World :=
  { w with ambientIntensity := value }

/-- The `onChange` handler of the `directionalLightIntensity` controller (lines 150-152). -/
def directionalLightOnChange (value : ℚ) (w : World) : World :=
  { w with directionalIntensity := value }

/-- One frame of `animate` (lines 164-169), as far as the field is concerned. -/
def animate (w : World) : World :=
  updateSnowflakes w.options.snowflakeSpeed w

/-- The `options` literal of lines 121-128. -/
def defaultOptions : Options :=
  { snowflakeSpeed := 0.05, snowflakeSize := 0.05, snowflakeCount := 100,
    ambientLightIntensity := 0.6, directionalLightIntensity := 0.8, shadowsEnabled := true }

/-- The state at line 89: the scene holds the ambient light (identity 0), the directional
light (1) and the ground plane (2); the `snowflakes` array is empty. -/
def sceneSetup (rand : Nat → ℚ) : World :=
  { children := [0, 1, 2], snowflakes := [], options := defaultOptions,
    rand := rand, cursor := 0, nextId := 3,
    shadowMapEnabled := true, directionalLightCastShadow := true, planeReceiveShadow := true,
    ambientIntensity := 0.6, directionalIntensity := 0.8 }

/-- Lines 113-114: `let snowflakeCount = 100; for (...) createSnowflake(0.05);`. -/
def populateInitial (w : World) : World :=
  forLoop 100 (fun v => (createSnowflake 0.05 v).2) 0 w

/-- The state once the module body has run. -/
def startup (rand : Nat → ℚ) : World :=
  populateInitial (sceneSetup rand)

/-- What can happen after start-up.  The parameter panel stores the new value in `options`
and then calls the `onChange` handler of the controller, if it has one. -/
inductive Event where
  | setCount (n : Int)
  | setSize (s : ℚ)
  | setSpeed (v : ℚ)
  | setAmbient (v : ℚ)
  | setDirectional (v : ℚ)
  | setShadows (b : Bool)
  | modelLoaded
  | tick

/-- The effect of one event. -/
def step (w : World) : Event → World
  | .setCount n =>
    updateSnowflakeCount { w with options := { w.options with snowflakeCount := n } }
  | .setSize s =>
    snowflakeSizeOnChange s { w with options := { w.options with snowflakeSize := s } }
  | .setSpeed v => { w with options := { w.options with snowflakeSpeed := v } }
  | .setAmbient v =>
    ambientLightOnChange v { w with options := { w.options with ambientLightIntensity := v } }
  | .setDirectional v =>
    directionalLightOnChange v
      { w with options := { w.options with directionalLightIntensity := v } }
  | .setShadows b =>
    shadowsEnabledOnChange b { w with options := { w.options with shadowsEnabled := b } }
  | .modelLoaded => sceneAdd w.nextId { w with nextId := w.nextId + 1 }
  | .tick => animate w

/-- The events the panel can deliver: a count is a non-negative integer. -/
def Event.admissible : Event → Prop
  | .setCount n => 0 ≤ n
  | _ => True

instance Event.decidableAdmissible (e : Event) : Decidable e.admissible := by
  cases e <;> unfold Event.admissible <;> infer_instance

/-- States reachable from start-up by admissible events. -/
inductive Reachable (rand : Nat → ℚ) : World → Prop where
  | init : Reachable rand (startup rand)
  | next (w : World) (e : Event) : Reachable rand w → e.admissible → Reachable rand (step w e)

/-- The random stream only yields values of `Math.random()`, that is of `[0, 1)`. -/
def UnitStream (rand : Nat → ℚ) : Prop :=
  ∀ i, 0 ≤ rand i ∧ rand i < 1

/-- Object identities in the scene are below the allocation counter: a constructed
object is new. -/
def FreshIds (w : World) : Prop :=
  ∀ i ∈ w.children, i < w.nextId

/-- Every particle of the field is in the scene exactly once. -/
def Registered (w : World) : Prop :=
  ∀ m ∈ w.snowflakes, w.children.count m.id = 1

/-- The meshes produced by `k` consecutive calls `createSnowflake(size)` when the
allocation counter is `a` and the cursor is `c`. -/
def spawned (size : ℚ) (rand : Nat → ℚ) (a c k : Nat) : List Mesh :=
  (List.range k).map fun i =>
    { id := a + i, radius := size,
      position := { x := rand (c + 3 * i) * 10 - 5, y := rand (c + 3 * i + 1) * 10 + 1,
                    z := rand (c + 3 * i + 2) * 10 - 5 },
      castShadow := false, receiveShadow := false }

/-- Applies `updateSnowflakes` once for every speed of the list, in order. -/
def advanceAll (speeds : List ℚ) (w : World) : World :=
  speeds.foldl (fun acc speed => updateSnowflakes speed acc) w

/-- The state after `k` consecutive calls `createSnowflake(size)` from `w`, in closed form. -/
def grown (size : ℚ) (k : Nat) (w : World) : World :=
  { w with
    snowflakes := w.snowflakes ++ spawned size w.rand w.nextId w.cursor k
    children := w.children ++ (List.range k).map (fun i => w.nextId + i)
    nextId := w.nextId + k
    cursor := w.cursor + 3 * k }

/-- Number of snowflakes among the first `i` of `l` that `updateSnowflakes(speed)` recycles,
that is the number of draws consumed before the callback reaches index `i`. -/
def recycledBefore (speed : ℚ) (l : List Mesh) (i : Nat) : Nat :=
  ((l.take i).filter (fun m => decide (m.position.y - speed < 0))).length

/-- A snowflake with its height blanked out: everything `updateSnowflakes` must not touch. -/
def Mesh.withoutY (m : Mesh) : Mesh :=
  { m with position := { m.position with y := 0 } }

/-- A snowflake at height `0.5`, the recycling boundary example of the specification. -/
def boundaryFlake : Mesh :=
  { id := 3, radius := 0.05, position := { x := 2, y := 0.5, z := -3 },
    castShadow := false, receiveShadow := false }

/-- A field that consists of `boundaryFlake` alone; every draw of the stream is `1/2`. -/
def boundaryWorld : World :=
  { sceneSetup (fun _ => 1 / 2) with
    children := [0, 1, 2, 3], snowflakes := [boundaryFlake], nextId := 4 }

/-- The panel stores a count and a size: `options.snowflakeCount = n` and
`options.snowflakeSize = s`; nothing else changes. -/
def configure (n : Int) (s : ℚ) (w : World) : World :=
  { w with options := { w.options with snowflakeCount := n, snowflakeSize := s } }

/-- A fixed random stream with values `0, 0.1, ..., 0.9` in rotation. -/
def seededStream (i : Nat) : ℚ :=
  ((i % 10 : Nat) : ℚ) / 10

/-! ## The counting loop -/

theorem forLoop_eq_iterate (count : Int) (body : World → World) (i : Int) (w : World) :
    forLoop count body i w = body^[(count - i).toNat] w := by
  generalize hk : (count - i).toNat = k
  induction k generalizing i w with
  | zero =>
    rw [forLoop, if_neg (by omega)]
    rfl
  | succ k ih =>
    rw [forLoop, if_pos (by omega), ih (i + 1) (body w) (by omega)]
    rfl

theorem spawned_succ (size : ℚ) (rand : Nat → ℚ) (a c k : Nat) :
    spawned size rand a c (k + 1) = spawned size rand a c k ++
      [{ id := a + k, radius := size,
         position := { x := rand (c + 3 * k) * 10 - 5, y := rand (c + 3 * k + 1) * 10 + 1,
                       z := rand (c + 3 * k + 2) * 10 - 5 },
         castShadow := false, receiveShadow := false }] := by
  simp [spawned, List.range_succ]

theorem createSnowflake_grown (size : ℚ) (k : Nat) (w : World) :
    (createSnowflake size (grown size k w)).2 = grown size (k + 1) w := by
  simp only [createSnowflake, random, sceneAdd, grown, spawned_succ, List.range_succ,
    List.map_append, List.map_cons, List.map_nil, List.append_assoc]
  rfl

theorem grown_zero (size : ℚ) (w : World) : grown size 0 w = w := by
  cases w
  simp [grown, spawned]

theorem iterate_createSnowflake (size : ℚ) (k : Nat) (w : World) :
    (fun v => (createSnowflake size v).2)^[k] w = grown size k w := by
  induction k with
  | zero => simp [grown_zero]
  | succ k ih => rw [Function.iterate_succ_apply', ih, createSnowflake_grown]

theorem iterate_createSnowflake_options (k : Nat) (w : World) :
    (fun v => (createSnowflake v.options.snowflakeSize v).2)^[k] w
      = grown w.options.snowflakeSize k w := by
  induction k with
  | zero => simp [grown_zero]
  | succ k ih =>
    rw [Function.iterate_succ_apply', ih]
    exact createSnowflake_grown w.options.snowflakeSize k w

/-! ## Clearing the field -/

theorem foldl_sceneRemove (l : List Mesh) (w : World) :
    l.foldl (fun acc snowflake => sceneRemove snowflake.id acc) w
      = { w with children := l.foldl (fun c snowflake => c.erase snowflake.id) w.children } := by
  induction l generalizing w with
  | nil => rfl
  | cons m l ih => rw [List.foldl_cons, ih]; rfl

theorem erase_eq_filter_of_count_le_one (l : List Nat) (a : Nat) (h : l.count a ≤ 1) :
    l.erase a = l.filter (fun i => decide (i ≠ a)) := by
  induction l with
  | nil => rfl
  | cons b l ih =>
    by_cases hb : b = a
    · subst hb
      have h0 : l.count b = 0 := by simpa using h
      have hmem : b ∉ l := List.count_eq_zero.mp h0
      simp only [List.erase_cons_head, ne_eq, not_true_eq_false, decide_False, Bool.false_eq_true,
        not_false_eq_true, List.filter_cons_of_neg]
      symm
      rw [List.filter_eq_self]
      intro c hc
      have : c ≠ b := fun e => hmem (e ▸ hc)
      simpa using this
    · have hle : l.count a ≤ 1 := by
        rw [List.count_cons_of_ne (fun e => hb e.symm)] at h
        exact h
      rw [List.erase_cons_tail (by simpa using hb), ih hle]
      simp [hb]

theorem foldl_erase_eq_filter (ms : List Mesh) (l : List Nat)
    (h : ∀ m ∈ ms, l.count m.id ≤ 1) :
    ms.foldl (fun c snowflake => c.erase snowflake.id) l
      = l.filter (fun i => decide (i ∉ ms.map Mesh.id)) := by
  induction ms generalizing l with
  | nil => simp
  | cons m ms ih =>
    rw [List.foldl_cons, ih, erase_eq_filter_of_count_le_one l m.id (h m (List.mem_cons_self _ _)),
      List.filter_filter]
    · congr 1
      funext i
      by_cases h1 : i = m.id <;> by_cases h2 : i ∈ List.map Mesh.id ms <;> simp [h1, h2]
    · intro b hb
      exact le_trans (List.Sublist.count_le (List.erase_sublist _ _) _)
        (h b (List.mem_cons_of_mem _ hb))

theorem clearSnowflakes_eq (w : World) (h : ∀ m ∈ w.snowflakes, w.children.count m.id ≤ 1) :
    clearSnowflakes w
      = { w with
          children := w.children.filter (fun i => decide (i ∉ w.snowflakes.map Mesh.id))
          snowflakes := [] } := by
  unfold clearSnowflakes
  rw [foldl_sceneRemove]
  simp only [foldl_erase_eq_filter w.snowflakes w.children h]

theorem updateSnowflakeCount_eq (w : World) :
    updateSnowflakeCount w
      = grown w.options.snowflakeSize w.options.snowflakeCount.toNat (clearSnowflakes w) := by
  unfold updateSnowflakeCount
  simp only [forLoop_eq_iterate, sub_zero, iterate_createSnowflake_options]
  rw [clearSnowflakes, foldl_sceneRemove]

theorem snowflakeSizeOnChange_eq (value : ℚ) (w : World) :
    snowflakeSizeOnChange value w
      = grown value w.options.snowflakeCount.toNat (clearSnowflakes w) := by
  unfold snowflakeSizeOnChange
  simp only [forLoop_eq_iterate, sub_zero, iterate_createSnowflake]
  rw [clearSnowflakes, foldl_sceneRemove]

theorem spawned_length (size : ℚ) (rand : Nat → ℚ) (a c k : Nat) :
    (spawned size rand a c k).length = k := by
  simp [spawned]

theorem spawned_ids (size : ℚ) (rand : Nat → ℚ) (a c k : Nat) :
    (spawned size rand a c k).map Mesh.id = (List.range k).map (fun i => a + i) := by
  simp [spawned, Function.comp_def]

theorem mem_spawned {size : ℚ} {rand : Nat → ℚ} {a c k : Nat} {m : Mesh}
    (h : m ∈ spawned size rand a c k) :
    ∃ i, i < k ∧ m =
      { id := a + i, radius := size,
        position := { x := rand (c + 3 * i) * 10 - 5, y := rand (c + 3 * i + 1) * 10 + 1,
                      z := rand (c + 3 * i + 2) * 10 - 5 },
        castShadow := false, receiveShadow := false } := by
  simp only [spawned, List.mem_map, List.mem_range] at h
  obtain ⟨i, hi, rfl⟩ := h
  exact ⟨i, hi, rfl⟩

theorem range_shift_nodup (a k : Nat) : ((List.range k).map (fun i => a + i)).Nodup :=
  (List.nodup_range k).map (fun _ _ h => Nat.add_left_cancel h)

/-! ## One animation step -/

theorem fall_fst (speed : ℚ) (rand : Nat → ℚ) (m : Mesh) (c : Nat) :
    (fall speed rand m c).1 =
      { m with position := { m.position with
          y := if m.position.y - speed < 0 then rand c * 10 + 1 else m.position.y - speed } } := by
  unfold fall
  by_cases h : m.position.y - speed < 0 <;> simp [h]

theorem fall_snd (speed : ℚ) (rand : Nat → ℚ) (m : Mesh) (c : Nat) :
    (fall speed rand m c).2 = c + if m.position.y - speed < 0 then 1 else 0 := by
  unfold fall
  by_cases h : m.position.y - speed < 0 <;> simp [h]

theorem fall_withoutY (speed : ℚ) (rand : Nat → ℚ) (m : Mesh) (c : Nat) :
    (fall speed rand m c).1.withoutY = m.withoutY := by
  rw [fall_fst]
  rfl

theorem fall_y_nonneg (speed : ℚ) (rand : Nat → ℚ) (hrand : UnitStream rand) (m : Mesh)
    (c : Nat) : 0 ≤ (fall speed rand m c).1.position.y := by
  rw [fall_fst]
  by_cases h : m.position.y - speed < 0
  · simp only [h, if_true]
    have := (hrand c).1
    linarith
  · simp only [h, if_false]
    exact not_lt.mp h

theorem fallAll_length (speed : ℚ) (rand : Nat → ℚ) (l : List Mesh) (c : Nat) :
    (fallAll speed rand l c).1.length = l.length := by
  induction l generalizing c with
  | nil => rfl
  | cons m l ih => simp [fallAll, ih]

theorem recycledBefore_zero (speed : ℚ) (l : List Mesh) : recycledBefore speed l 0 = 0 := by
  simp [recycledBefore]

theorem recycledBefore_cons_succ (speed : ℚ) (m : Mesh) (l : List Mesh) (i : Nat) :
    recycledBefore speed (m :: l) (i + 1)
      = (if m.position.y - speed < 0 then 1 else 0) + recycledBefore speed l i := by
  unfold recycledBefore
  rw [List.take_succ_cons]
  by_cases h : m.position.y - speed < 0
  · rw [List.filter_cons_of_pos (by simpa using h), if_pos h, List.length_cons, Nat.add_comm]
  · rw [List.filter_cons_of_neg (by simpa using h), if_neg h, Nat.zero_add]

theorem fallAll_getElem? (speed : ℚ) (rand : Nat → ℚ) (l : List Mesh) (c i : Nat) :
    (fallAll speed rand l c).1[i]?
      = (l[i]?).map (fun m => (fall speed rand m (c + recycledBefore speed l i)).1) := by
  induction l generalizing c i with
  | nil => simp [fallAll]
  | cons m l ih =>
    cases i with
    | zero => simp [fallAll, recycledBefore_zero]
    | succ i =>
      simp only [fallAll, List.getElem?_cons_succ, ih, recycledBefore_cons_succ, fall_snd,
        Nat.add_assoc]

theorem mem_fallAll {speed : ℚ} {rand : Nat → ℚ} {l : List Mesh} {c : Nat} {m : Mesh}
    (h : m ∈ (fallAll speed rand l c).1) :
    ∃ m0 ∈ l, ∃ c0, m = (fall speed rand m0 c0).1 := by
  induction l generalizing c with
  | nil => simp [fallAll] at h
  | cons a l ih =>
    simp only [fallAll, List.mem_cons] at h
    rcases h with h | h
    · exact ⟨a, List.mem_cons_self _ _, c, h⟩
    · obtain ⟨m0, hm0, c0, e⟩ := ih h
      exact ⟨m0, List.mem_cons_of_mem _ hm0, c0, e⟩

theorem fallAll_map_withoutY (speed : ℚ) (rand : Nat → ℚ) (l : List Mesh) (c : Nat) :
    (fallAll speed rand l c).1.map Mesh.withoutY = l.map Mesh.withoutY := by
  induction l generalizing c with
  | nil => rfl
  | cons m l ih => simp [fallAll, ih, fall_withoutY]

theorem unitStream_half : UnitStream (fun _ => (1 / 2 : ℚ)) := by
  intro i
  constructor <;> norm_num

/-! ## The claims about `updateSnowflakes` -/

/-- C2: `updateSnowflakes(speed)` maps the height of the particle at every index `i` as
follows: if `y - speed < 0` the new height is `10 * r + 1` for the draw `r` the callback
consumes at that particle (the draws before it went to the particles recycled earlier in the
same pass), and it lies in `[1, 11]`; otherwise the new height is exactly `y - speed`. -/
theorem updateSnowflakes_height (w : World) (speed : ℚ) (i : Nat) (m : Mesh)
    (hrand : UnitStream w.rand) (hm : w.snowflakes[i]? = some m) :
    ∃ m1, (updateSnowflakes speed w).snowflakes[i]? = some m1 ∧
      (m.position.y - speed < 0 →
        m1.position.y = 10 * w.rand (w.cursor + recycledBefore speed w.snowflakes i) + 1 ∧
        1 ≤ m1.position.y ∧ m1.position.y ≤ 11) ∧
      (¬ m.position.y - speed < 0 → m1.position.y = m.position.y - speed) := by
  refine ⟨(fall speed w.rand m (w.cursor + recycledBefore speed w.snowflakes i)).1, ?_, ?_, ?_⟩
  · show (fallAll speed w.rand w.snowflakes w.cursor).1[i]? = _
    rw [fallAll_getElem?, hm]
    rfl
  · intro h
    rw [fall_fst]
    simp only [h, if_true]
    have h0 := (hrand (w.cursor + recycledBefore speed w.snowflakes i)).1
    have h1 := (hrand (w.cursor + recycledBefore speed w.snowflakes i)).2
    refine ⟨by ring, by linarith, by linarith⟩
  · intro h
    rw [fall_fst]
    simp only [h, if_false]

/-- Witness of C2: the particle at height `0.5` under `updateSnowflakes(0.6)`. -/
theorem updateSnowflakes_height_witness :
    UnitStream boundaryWorld.rand ∧ boundaryWorld.snowflakes[0]? = some boundaryFlake ∧
    ∃ m1, (updateSnowflakes 0.6 boundaryWorld).snowflakes[0]? = some m1 ∧
      (boundaryFlake.position.y - 0.6 < 0 →
        m1.position.y
          = 10 * boundaryWorld.rand
              (boundaryWorld.cursor + recycledBefore 0.6 boundaryWorld.snowflakes 0) + 1 ∧
        1 ≤ m1.position.y ∧ m1.position.y ≤ 11) ∧
      (¬ boundaryFlake.position.y - 0.6 < 0 →
        m1.position.y = boundaryFlake.position.y - 0.6) :=
  ⟨unitStream_half, rfl,
    updateSnowflakes_height boundaryWorld 0.6 0 boundaryFlake unitStream_half rfl⟩

/-- C3: whatever the heights before and whatever the sign of the speed, after
`updateSnowflakes(speed)` every particle of the field has `position.y >= 0`, for every random
stream with values in `[0, 1)`. -/
theorem updateSnowflakes_nonneg (w : World) (speed : ℚ) (hrand : UnitStream w.rand) :
    ∀ m ∈ (updateSnowflakes speed w).snowflakes, 0 ≤ m.position.y := by
  intro m hm
  obtain ⟨m0, -, c0, rfl⟩ := mem_fallAll hm
  exact fall_y_nonneg speed w.rand hrand m0 c0

/-- Witness of C3: the boundary field under a negative speed. -/
theorem updateSnowflakes_nonneg_witness :
    UnitStream boundaryWorld.rand ∧
    ∀ m ∈ (updateSnowflakes (-3) boundaryWorld).snowflakes, 0 ≤ m.position.y :=
  ⟨unitStream_half, updateSnowflakes_nonneg boundaryWorld (-3) unitStream_half⟩

/-- C4: `updateSnowflakes(speed)` leaves `position.x` and `position.z` of the particle at
every index unchanged, recycled or not; apart from the height nothing of a particle changes,
the field keeps its length and the scene keeps its children. -/
theorem updateSnowflakes_frame (w : World) (speed : ℚ) :
    (∀ i : Nat,
      ((updateSnowflakes speed w).snowflakes[i]?).map
          (fun m : Mesh => (m.position.x, m.position.z))
        = (w.snowflakes[i]?).map (fun m : Mesh => (m.position.x, m.position.z))) ∧
    (updateSnowflakes speed w).snowflakes.map Mesh.withoutY = w.snowflakes.map Mesh.withoutY ∧
    (updateSnowflakes speed w).snowflakes.length = w.snowflakes.length ∧
    (updateSnowflakes speed w).children = w.children := by
  refine ⟨?_, fallAll_map_withoutY speed w.rand w.snowflakes w.cursor,
    fallAll_length speed w.rand w.snowflakes w.cursor, rfl⟩
  intro i
  show ((fallAll speed w.rand w.snowflakes w.cursor).1[i]?).map _ = _
  rw [fallAll_getElem?, Option.map_map]
  congr 1
  funext m
  simp [fall_fst]

/-! ## Repopulation in closed form -/

theorem clearSnowflakes_fields (w : World) :
    (clearSnowflakes w).snowflakes = [] ∧ (clearSnowflakes w).options = w.options ∧
    (clearSnowflakes w).rand = w.rand ∧ (clearSnowflakes w).cursor = w.cursor ∧
    (clearSnowflakes w).nextId = w.nextId := by
  unfold clearSnowflakes
  rw [foldl_sceneRemove]
  exact ⟨rfl, rfl, rfl, rfl, rfl⟩

theorem updateSnowflakeCount_snowflakes (w : World) :
    (updateSnowflakeCount w).snowflakes
      = spawned w.options.snowflakeSize w.rand w.nextId w.cursor w.options.snowflakeCount.toNat := by
  rw [updateSnowflakeCount_eq, clearSnowflakes, foldl_sceneRemove]
  simp [grown]

theorem snowflakeSizeOnChange_snowflakes (value : ℚ) (w : World) :
    (snowflakeSizeOnChange value w).snowflakes
      = spawned value w.rand w.nextId w.cursor w.options.snowflakeCount.toNat := by
  rw [snowflakeSizeOnChange_eq, clearSnowflakes, foldl_sceneRemove]
  simp [grown]

theorem updateSnowflakeCount_options (w : World) :
    (updateSnowflakeCount w).options = w.options := by
  rw [updateSnowflakeCount_eq, clearSnowflakes, foldl_sceneRemove]
  rfl

theorem snowflakeSizeOnChange_options (value : ℚ) (w : World) :
    (snowflakeSizeOnChange value w).options = w.options := by
  rw [snowflakeSizeOnChange_eq, clearSnowflakes, foldl_sceneRemove]
  rfl

theorem grown_fresh (size : ℚ) (k : Nat) (w : World) (hf : FreshIds w) :
    FreshIds (grown size k w) := by
  intro i hi
  simp only [grown, List.mem_append, List.mem_map, List.mem_range] at hi
  show i < w.nextId + k
  rcases hi with hi | ⟨j, hj, rfl⟩
  · have := hf i hi
    omega
  · omega

theorem grown_registered (size : ℚ) (k : Nat) (w : World) (hf : FreshIds w)
    (hr : Registered w) : Registered (grown size k w) := by
  intro m hm
  simp only [grown, List.mem_append] at hm
  show List.count m.id (w.children ++ (List.range k).map (fun i => w.nextId + i)) = 1
  rw [List.count_append]
  rcases hm with hm | hm
  · have h1 := hr m hm
    have hmem : m.id ∈ w.children := List.count_pos_iff.mp (by omega)
    have hlt := hf _ hmem
    have h0 : List.count m.id ((List.range k).map (fun i => w.nextId + i)) = 0 := by
      rw [List.count_eq_zero]
      intro h
      simp only [List.mem_map, List.mem_range] at h
      obtain ⟨j, -, e⟩ := h
      omega
    omega
  · obtain ⟨i, hi, rfl⟩ := mem_spawned hm
    have h0 : List.count (w.nextId + i) w.children = 0 := by
      rw [List.count_eq_zero]
      intro h
      have := hf _ h
      omega
    have h1 : List.count (w.nextId + i) ((List.range k).map (fun i => w.nextId + i)) = 1 :=
      List.count_eq_one_of_mem (range_shift_nodup _ _)
        (List.mem_map.mpr ⟨i, List.mem_range.mpr hi, rfl⟩)
    change List.count (w.nextId + i) w.children
      + List.count (w.nextId + i) ((List.range k).map (fun i => w.nextId + i)) = 1
    rw [h0, h1]

/-! ## The claims about population -/

/-- C1: from a state in which every particle of the field is in the scene exactly once (and
object identities in the scene are older than the next allocation), after
`updateSnowflakeCount` with `options.snowflakeCount = n >= 0` and `options.snowflakeSize = s`
the field has length exactly `n`; its particles are pairwise distinct new objects of radius
`s`; the scene is what it held besides the old field followed by exactly the new particles,
each once; no particle of the old field is left in the scene; and a second call with the same
`(n, s)` keeps the length at `n`. -/
theorem updateSnowflakeCount_replaces (w : World) (n : Int) (s : ℚ) (hfresh : FreshIds w)
    (hreg : Registered w) (hn : 0 ≤ n) :
    ((updateSnowflakeCount (configure n s w)).snowflakes.length : Int) = n ∧
    ((updateSnowflakeCount (configure n s w)).snowflakes.map Mesh.id).Nodup ∧
    (updateSnowflakeCount (configure n s w)).children
      = w.children.filter (fun i => decide (i ∉ w.snowflakes.map Mesh.id))
        ++ (updateSnowflakeCount (configure n s w)).snowflakes.map Mesh.id ∧
    (∀ m ∈ (updateSnowflakeCount (configure n s w)).snowflakes,
      (updateSnowflakeCount (configure n s w)).children.count m.id = 1 ∧
      m.id ∉ w.children ∧ m ∉ w.snowflakes ∧ m.radius = s) ∧
    (∀ m ∈ w.snowflakes, m.id ∉ (updateSnowflakeCount (configure n s w)).children) ∧
    ((updateSnowflakeCount (updateSnowflakeCount (configure n s w))).snowflakes.length : Int)
      = n := by
  have hle : ∀ m ∈ (configure n s w).snowflakes,
      (configure n s w).children.count m.id ≤ 1 := fun m hm => le_of_eq (hreg m hm)
  have hclear := clearSnowflakes_eq (configure n s w) hle
  have hsn := updateSnowflakeCount_snowflakes (configure n s w)
  have hch : (updateSnowflakeCount (configure n s w)).children
      = w.children.filter (fun i => decide (i ∉ w.snowflakes.map Mesh.id))
        ++ (List.range n.toNat).map (fun i => w.nextId + i) := by
    rw [updateSnowflakeCount_eq, hclear]
    rfl
  have hcleanFresh : FreshIds (clearSnowflakes (configure n s w)) := by
    rw [hclear]
    intro i hi
    exact hfresh i (List.mem_of_mem_filter hi)
  have hcleanReg : Registered (clearSnowflakes (configure n s w)) := by
    intro m hm
    rw [(clearSnowflakes_fields _).1] at hm
    cases hm
  have hregNew : Registered (updateSnowflakeCount (configure n s w)) := by
    rw [updateSnowflakeCount_eq]
    exact grown_registered _ _ _ hcleanFresh hcleanReg
  have hids : (updateSnowflakeCount (configure n s w)).snowflakes.map Mesh.id
      = (List.range n.toNat).map (fun i => w.nextId + i) := by
    rw [hsn, spawned_ids]
    rfl
  refine ⟨?_, ?_, ?_, ?_, ?_, ?_⟩
  · rw [hsn, spawned_length]
    exact Int.toNat_of_nonneg hn
  · rw [hids]
    exact range_shift_nodup _ _
  · rw [hids, hch]
  · intro m hm
    refine ⟨hregNew m hm, ?_, ?_, ?_⟩
    · rw [hsn] at hm
      obtain ⟨i, -, rfl⟩ := mem_spawned hm
      intro h
      have := hfresh _ h
      change w.nextId + i < w.nextId at this
      omega
    · rw [hsn] at hm
      obtain ⟨i, -, rfl⟩ := mem_spawned hm
      intro h
      have h1 := hreg _ h
      have hmem : w.nextId + i ∈ w.children := List.count_pos_iff.mp (by
        change 0 < List.count (w.nextId + i) w.children
        change List.count (w.nextId + i) w.children = 1 at h1
        omega)
      have := hfresh _ hmem
      omega
    · rw [hsn] at hm
      obtain ⟨i, -, rfl⟩ := mem_spawned hm
      rfl
  · intro m hm h
    rw [hch, List.mem_append] at h
    rcases h with h | h
    · have := (List.mem_filter.mp h).2
      simp only [decide_eq_true_eq] at this
      exact this (List.mem_map.mpr ⟨m, hm, rfl⟩)
    · simp only [List.mem_map, List.mem_range] at h
      obtain ⟨j, -, e⟩ := h
      have h1 := hreg _ hm
      have hmem : m.id ∈ w.children := List.count_pos_iff.mp (by omega)
      have := hfresh _ hmem
      omega
  · rw [updateSnowflakeCount_snowflakes, spawned_length, updateSnowflakeCount_options]
    exact Int.toNat_of_nonneg hn

/-- Witness of C1: the one-particle field repopulated with two particles of radius `0.1`. -/
theorem updateSnowflakeCount_replaces_witness :
    FreshIds boundaryWorld ∧ Registered boundaryWorld ∧ (0 : Int) ≤ 2 ∧
    (((updateSnowflakeCount (configure 2 0.1 boundaryWorld)).snowflakes.length : Int) = 2 ∧
    ((updateSnowflakeCount (configure 2 0.1 boundaryWorld)).snowflakes.map Mesh.id).Nodup ∧
    (updateSnowflakeCount (configure 2 0.1 boundaryWorld)).children
      = boundaryWorld.children.filter
          (fun i => decide (i ∉ boundaryWorld.snowflakes.map Mesh.id))
        ++ (updateSnowflakeCount (configure 2 0.1 boundaryWorld)).snowflakes.map Mesh.id ∧
    (∀ m ∈ (updateSnowflakeCount (configure 2 0.1 boundaryWorld)).snowflakes,
      (updateSnowflakeCount (configure 2 0.1 boundaryWorld)).children.count m.id = 1 ∧
      m.id ∉ boundaryWorld.children ∧ m ∉ boundaryWorld.snowflakes ∧ m.radius = 0.1) ∧
    (∀ m ∈ boundaryWorld.snowflakes,
      m.id ∉ (updateSnowflakeCount (configure 2 0.1 boundaryWorld)).children) ∧
    ((updateSnowflakeCount
        (updateSnowflakeCount (configure 2 0.1 boundaryWorld))).snowflakes.length : Int) = 2) :=
  ⟨by intro i hi; simp [boundaryWorld] at hi; rcases hi with h | h | h | h <;> subst h <;>
        simp [boundaryWorld],
    by intro m hm; simp [boundaryWorld] at hm; subst hm; simp [boundaryWorld, boundaryFlake],
    by decide,
    updateSnowflakeCount_replaces boundaryWorld 2 0.1
      (by intro i hi; simp [boundaryWorld] at hi; rcases hi with h | h | h | h <;> subst h <;>
            simp [boundaryWorld])
      (by intro m hm; simp [boundaryWorld] at hm; subst hm; simp [boundaryWorld, boundaryFlake])
      (by decide)⟩

/-- C6: `createSnowflake(size)` appends exactly one particle at the end of the field (the
length grows by one, the older particles stay as they are and where they are), pushes that
same object to the scene, and places it at `-5 <= x <= 5`, `1 <= y <= 11`, `-5 <= z <= 5`,
where `x`, `y` and `z` come from three consecutive draws of their own. -/
theorem createSnowflake_appends (w : World) (size : ℚ) (hrand : UnitStream w.rand) :
    ∃ m : Mesh,
      (createSnowflake size w).2.snowflakes = w.snowflakes ++ [m] ∧
      (createSnowflake size w).2.snowflakes.length = w.snowflakes.length + 1 ∧
      (createSnowflake size w).2.children = w.children ++ [m.id] ∧
      m.id = w.nextId ∧ m.radius = size ∧
      m.position.x = w.rand w.cursor * 10 - 5 ∧
      m.position.y = w.rand (w.cursor + 1) * 10 + 1 ∧
      m.position.z = w.rand (w.cursor + 2) * 10 - 5 ∧
      (createSnowflake size w).2.cursor = w.cursor + 3 ∧
      (-5 ≤ m.position.x ∧ m.position.x ≤ 5) ∧
      (1 ≤ m.position.y ∧ m.position.y ≤ 11) ∧
      (-5 ≤ m.position.z ∧ m.position.z ≤ 5) := by
  have hx := hrand w.cursor
  have hy := hrand (w.cursor + 1)
  have hz := hrand (w.cursor + 2)
  refine ⟨{ id := w.nextId, radius := size,
            position := { x := w.rand w.cursor * 10 - 5, y := w.rand (w.cursor + 1) * 10 + 1,
                          z := w.rand (w.cursor + 2) * 10 - 5 },
            castShadow := false, receiveShadow := false },
    rfl, ?_, rfl, rfl, rfl, rfl, rfl, rfl, rfl, ?_, ?_, ?_⟩
  · simp [createSnowflake, sceneAdd, random]
  · constructor <;> dsimp only <;> linarith [hx.1, hx.2]
  · constructor <;> dsimp only <;> linarith [hy.1, hy.2]
  · constructor <;> dsimp only <;> linarith [hz.1, hz.2]

/-- Witness of C6: one more snowflake of radius `0.05` in the one-particle field. -/
theorem createSnowflake_appends_witness :
    UnitStream boundaryWorld.rand ∧
    ∃ m : Mesh,
      (createSnowflake 0.05 boundaryWorld).2.snowflakes = boundaryWorld.snowflakes ++ [m] ∧
      (createSnowflake 0.05 boundaryWorld).2.snowflakes.length
        = boundaryWorld.snowflakes.length + 1 ∧
      (createSnowflake 0.05 boundaryWorld).2.children = boundaryWorld.children ++ [m.id] ∧
      m.id = boundaryWorld.nextId ∧ m.radius = 0.05 ∧
      m.position.x = boundaryWorld.rand boundaryWorld.cursor * 10 - 5 ∧
      m.position.y = boundaryWorld.rand (boundaryWorld.cursor + 1) * 10 + 1 ∧
      m.position.z = boundaryWorld.rand (boundaryWorld.cursor + 2) * 10 - 5 ∧
      (createSnowflake 0.05 boundaryWorld).2.cursor = boundaryWorld.cursor + 3 ∧
      (-5 ≤ m.position.x ∧ m.position.x ≤ 5) ∧
      (1 ≤ m.position.y ∧ m.position.y ≤ 11) ∧
      (-5 ≤ m.position.z ∧ m.position.z ≤ 5) :=
  ⟨unitStream_half, createSnowflake_appends boundaryWorld 0.05 unitStream_half⟩

/-- C7: the size-change handler called with the value `s` the panel has just stored in
`options.snowflakeSize`, the count being `n`, produces the very state `updateSnowflakeCount`
produces from the same state and random stream; the resulting field consists of the
`n` (none if `n` is negative) newly constructed particles only, nothing of the old field is
kept. -/
theorem snowflakeSizeOnChange_eq_updateSnowflakeCount (w : World) (n : Int) (s : ℚ) :
    snowflakeSizeOnChange s (configure n s w) = updateSnowflakeCount (configure n s w) ∧
    (updateSnowflakeCount (configure n s w)).snowflakes
      = spawned s w.rand w.nextId w.cursor n.toNat ∧
    (∀ m ∈ (updateSnowflakeCount (configure n s w)).snowflakes, w.nextId ≤ m.id) ∧
    (updateSnowflakeCount (configure n s w)).children
      = (clearSnowflakes w).children ++ (List.range n.toNat).map (fun i => w.nextId + i) := by
  refine ⟨?_, ?_, ?_, ?_⟩
  · rw [snowflakeSizeOnChange_eq, updateSnowflakeCount_eq]
    rfl
  · rw [updateSnowflakeCount_snowflakes]
    rfl
  · intro m hm
    rw [updateSnowflakeCount_snowflakes] at hm
    obtain ⟨i, -, rfl⟩ := mem_spawned hm
    exact Nat.le_add_right _ _
  · rw [updateSnowflakeCount_eq, clearSnowflakes, clearSnowflakes, foldl_sceneRemove,
      foldl_sceneRemove]
    rfl

/-- C9, as the specification states it, fails: in the one-particle field `createSnowflake(0.05)`
does not return the particle it appends. -/
theorem createSnowflake_returns_particle_counterexample :
    ¬ ∃ m : Mesh, (createSnowflake 0.05 boundaryWorld).1 = some m ∧
      (createSnowflake 0.05 boundaryWorld).2.snowflakes.getLast? = some m := by
  rintro ⟨m, h, -⟩
  cases h

/-- C9, amended: `createSnowflake(size)` returns no value (`undefined`); the particle it
created, of radius `size`, is the last element of the field afterwards. -/
theorem createSnowflake_result (w : World) (size : ℚ) :
    (createSnowflake size w).1 = none ∧
    ∃ m : Mesh, (createSnowflake size w).2.snowflakes = w.snowflakes ++ [m] ∧
      (createSnowflake size w).2.snowflakes.getLast? = some m ∧
      m.id = w.nextId ∧ m.radius = size := by
  refine ⟨rfl, Mesh.mk w.nextId size
    (Vector3.mk (w.rand w.cursor * 10 - 5) (w.rand (w.cursor + 1) * 10 + 1)
      (w.rand (w.cursor + 2) * 10 - 5)) false false, rfl, ?_, rfl, rfl⟩
  simp [createSnowflake, sceneAdd, random]

/-- C10: the shadow handler with value `v` sets `castShadow` and `receiveShadow` to `v` on
every particle of the field and changes neither a position nor the length of the field; a
count change or a size change afterwards yields a field whose particles all have
`castShadow = receiveShadow = false`, whatever `v` and `options.shadowsEnabled` are. -/
theorem shadowsEnabledOnChange_not_carried (w : World) (v : Bool) :
    (∀ m ∈ (shadowsEnabledOnChange v w).snowflakes, m.castShadow = v ∧ m.receiveShadow = v) ∧
    (shadowsEnabledOnChange v w).snowflakes.length = w.snowflakes.length ∧
    (shadowsEnabledOnChange v w).snowflakes.map Mesh.position
      = w.snowflakes.map Mesh.position ∧
    (∀ n : Int, ∀ m ∈ (step (step w (.setShadows v)) (.setCount n)).snowflakes,
      m.castShadow = false ∧ m.receiveShadow = false) ∧
    (∀ s : ℚ, ∀ m ∈ (step (step w (.setShadows v)) (.setSize s)).snowflakes,
      m.castShadow = false ∧ m.receiveShadow = false) := by
  refine ⟨?_, ?_, ?_, ?_, ?_⟩
  · intro m hm
    simp only [shadowsEnabledOnChange, List.mem_map] at hm
    obtain ⟨m0, -, rfl⟩ := hm
    exact ⟨rfl, rfl⟩
  · simp [shadowsEnabledOnChange]
  · simp [shadowsEnabledOnChange, Function.comp_def]
  · intro n m hm
    simp only [step] at hm
    rw [updateSnowflakeCount_snowflakes] at hm
    obtain ⟨i, -, rfl⟩ := mem_spawned hm
    exact ⟨rfl, rfl⟩
  · intro s m hm
    simp only [step] at hm
    rw [snowflakeSizeOnChange_snowflakes] at hm
    obtain ⟨i, -, rfl⟩ := mem_spawned hm
    exact ⟨rfl, rfl⟩

/-! ## Invariants along a run -/

theorem unitStream_seeded : UnitStream seededStream := by
  intro i
  have h : i % 10 < 10 := Nat.mod_lt _ (by decide)
  have hq : ((i % 10 : Nat) : ℚ) < 10 := by exact_mod_cast h
  have h0 : (0 : ℚ) ≤ ((i % 10 : Nat) : ℚ) := Nat.cast_nonneg _
  unfold seededStream
  constructor
  · positivity
  · rw [div_lt_one (by norm_num)]
    exact hq

theorem fall_y_le (speed : ℚ) (rand : Nat → ℚ) (hrand : UnitStream rand) (hs : 0 ≤ speed)
    (m : Mesh) (c : Nat) (hm : m.position.y ≤ 11) : (fall speed rand m c).1.position.y ≤ 11 := by
  rw [fall_fst]
  by_cases h : m.position.y - speed < 0
  · simp only [h, if_true]
    have := (hrand c).2
    linarith
  · simp only [h, if_false]
    linarith

theorem fall_radius (speed : ℚ) (rand : Nat → ℚ) (m : Mesh) (c : Nat) :
    (fall speed rand m c).1.radius = m.radius ∧ (fall speed rand m c).1.id = m.id := by
  rw [fall_fst]
  exact ⟨rfl, rfl⟩

theorem updateSnowflakes_band (w : World) (speed : ℚ) (hrand : UnitStream w.rand)
    (hs : 0 ≤ speed) (hb : ∀ m ∈ w.snowflakes, m.position.y ≤ 11) :
    ∀ m ∈ (updateSnowflakes speed w).snowflakes, 0 ≤ m.position.y ∧ m.position.y ≤ 11 := by
  intro m hm
  obtain ⟨m0, hm0, c0, rfl⟩ := mem_fallAll hm
  exact ⟨fall_y_nonneg speed w.rand hrand m0 c0,
    fall_y_le speed w.rand hrand hs m0 c0 (hb m0 hm0)⟩

theorem advanceAll_band (speeds : List ℚ) (w : World) (hrand : UnitStream w.rand)
    (hs : ∀ v ∈ speeds, 0 ≤ v)
    (hb : ∀ m ∈ w.snowflakes, 0 ≤ m.position.y ∧ m.position.y ≤ 11) :
    (advanceAll speeds w).snowflakes.length = w.snowflakes.length ∧
    ∀ m ∈ (advanceAll speeds w).snowflakes, 0 ≤ m.position.y ∧ m.position.y ≤ 11 := by
  induction speeds generalizing w with
  | nil => exact ⟨rfl, hb⟩
  | cons v speeds ih =>
    have hstep := updateSnowflakes_band w v hrand (hs v (List.mem_cons_self _ _))
      (fun m hm => (hb m hm).2)
    have := ih (updateSnowflakes v w) hrand (fun u hu => hs u (List.mem_cons_of_mem _ hu)) hstep
    refine ⟨?_, this.2⟩
    show (advanceAll speeds (updateSnowflakes v w)).snowflakes.length = _
    rw [this.1]
    exact fallAll_length v w.rand w.snowflakes w.cursor

/-- C5: populate `n >= 0` particles of any size into an empty field (the start-up loop of
lines 113-114 with `n = 100`, or the loop of a repopulation after the clearing), then
apply `updateSnowflakes` with any speeds `>= 0`, one call per speed: after every number `j` of
calls the field still has length `n` and every particle has its height in `[0, 11]`, for every
random stream with values in `[0, 1)`. -/
theorem populate_then_advance (w : World) (n : Int) (s : ℚ) (speeds : List ℚ) (j : Nat)
    (hrand : UnitStream w.rand) (hempty : w.snowflakes = []) (hn : 0 ≤ n)
    (hspeeds : ∀ v ∈ speeds, 0 ≤ v) :
    ((advanceAll (speeds.take j)
        (forLoop n (fun v => (createSnowflake s v).2) 0 w)).snowflakes.length : Int) = n ∧
    ∀ m ∈ (advanceAll (speeds.take j)
        (forLoop n (fun v => (createSnowflake s v).2) 0 w)).snowflakes,
      0 ≤ m.position.y ∧ m.position.y ≤ 11 := by
  rw [forLoop_eq_iterate, sub_zero, iterate_createSnowflake]
  have hsn : (grown s n.toNat w).snowflakes = spawned s w.rand w.nextId w.cursor n.toNat := by
    simp [grown, hempty]
  have hb : ∀ m ∈ (grown s n.toNat w).snowflakes, 0 ≤ m.position.y ∧ m.position.y ≤ 11 := by
    intro m hm
    rw [hsn] at hm
    obtain ⟨i, -, rfl⟩ := mem_spawned hm
    have h := hrand (w.cursor + 3 * i + 1)
    constructor <;> dsimp only <;> linarith [h.1, h.2]
  have := advanceAll_band (speeds.take j) (grown s n.toNat w) hrand
    (fun v hv => hspeeds v (List.mem_of_mem_take hv)) hb
  refine ⟨?_, this.2⟩
  rw [this.1, hsn, spawned_length]
  exact Int.toNat_of_nonneg hn

/-- Witness of C5: start-up (`n = 100`, `s = 0.05`) followed by 200 calls
`updateSnowflakes(0.05)` under the fixed stream `seededStream`. -/
theorem populate_then_advance_witness :
    UnitStream (sceneSetup seededStream).rand ∧ (sceneSetup seededStream).snowflakes = [] ∧
    (0 : Int) ≤ 100 ∧ (∀ v ∈ List.replicate 200 (0.05 : ℚ), 0 ≤ v) ∧
    ((advanceAll ((List.replicate 200 (0.05 : ℚ)).take 200)
        (startup seededStream)).snowflakes.length : Int) = 100 ∧
    ∀ m ∈ (advanceAll ((List.replicate 200 (0.05 : ℚ)).take 200)
        (startup seededStream)).snowflakes,
      0 ≤ m.position.y ∧ m.position.y ≤ 11 :=
  ⟨unitStream_seeded, rfl, by decide,
    fun v hv => by rw [List.eq_of_mem_replicate hv]; norm_num,
    populate_then_advance (sceneSetup seededStream) 100 0.05 (List.replicate 200 0.05) 200
      unitStream_seeded rfl (by decide)
      (fun v hv => by rw [List.eq_of_mem_replicate hv]; norm_num)⟩

/-- C8: in every state reachable from start-up by panel changes (count to a non-negative
integer, size, speed, light intensities, shadow toggle), model loads and animation ticks, the
field has length `options.snowflakeCount` and every particle has the radius
`options.snowflakeSize`. -/
theorem reachable_consistent (rand : Nat → ℚ) (w : World) (h : Reachable rand w) :
    (w.snowflakes.length : Int) = w.options.snowflakeCount ∧
    ∀ m ∈ w.snowflakes, m.radius = w.options.snowflakeSize := by
  induction h with
  | init =>
    have hsn : (startup rand).snowflakes = spawned 0.05 rand 3 0 100 := by
      unfold startup populateInitial
      rw [forLoop_eq_iterate, iterate_createSnowflake]
      rfl
    have hop : (startup rand).options = defaultOptions := by
      unfold startup populateInitial
      rw [forLoop_eq_iterate, iterate_createSnowflake]
      rfl
    rw [hsn, hop, spawned_length]
    refine ⟨rfl, ?_⟩
    intro m hm
    obtain ⟨i, -, rfl⟩ := mem_spawned hm
    rfl
  | next w e _ hadm ih =>
    cases e with
    | setCount n =>
      simp only [step]
      rw [updateSnowflakeCount_snowflakes, updateSnowflakeCount_options, spawned_length]
      refine ⟨Int.toNat_of_nonneg hadm, ?_⟩
      intro m hm
      obtain ⟨i, -, rfl⟩ := mem_spawned hm
      rfl
    | setSize s =>
      simp only [step]
      rw [snowflakeSizeOnChange_snowflakes, snowflakeSizeOnChange_options, spawned_length]
      refine ⟨?_, ?_⟩
      · show ((w.options.snowflakeCount.toNat : Nat) : Int) = w.options.snowflakeCount
        rw [← ih.1]
        simp
      · intro m hm
        obtain ⟨i, -, rfl⟩ := mem_spawned hm
        rfl
    | setSpeed v => exact ih
    | setAmbient v => exact ih
    | setDirectional v => exact ih
    | setShadows b =>
      refine ⟨?_, ?_⟩
      · show (((w.snowflakes.map _).length : Nat) : Int) = w.options.snowflakeCount
        rw [List.length_map]
        exact ih.1
      · intro m hm
        simp only [step, shadowsEnabledOnChange, List.mem_map] at hm
        obtain ⟨m0, hm0, rfl⟩ := hm
        exact ih.2 m0 hm0
    | modelLoaded => exact ih
    | tick =>
      refine ⟨?_, ?_⟩
      · show (((fallAll _ w.rand w.snowflakes w.cursor).1.length : Nat) : Int) = _
        rw [fallAll_length]
        exact ih.1
      · intro m hm
        obtain ⟨m0, hm0, c0, rfl⟩ := mem_fallAll hm
        rw [(fall_radius _ _ _ _).1]
        exact ih.2 m0 hm0

/-- Witness of C8: start-up, a count change to 50, a size change to `0.1`, one tick. -/
theorem reachable_consistent_witness :
    Reachable seededStream
      (step (step (step (startup seededStream) (.setCount 50)) (.setSize 0.1)) .tick) ∧
    (((step (step (step (startup seededStream) (.setCount 50)) (.setSize 0.1))
        .tick).snowflakes.length : Int)
      = (step (step (step (startup seededStream) (.setCount 50)) (.setSize 0.1))
        .tick).options.snowflakeCount ∧
    ∀ m ∈ (step (step (step (startup seededStream) (.setCount 50)) (.setSize 0.1))
        .tick).snowflakes,
      m.radius = (step (step (step (startup seededStream) (.setCount 50)) (.setSize 0.1))
        .tick).options.snowflakeSize) :=
  ⟨Reachable.next _ _ (Reachable.next _ _ (Reachable.next _ _ Reachable.init (by decide))
      trivial) trivial,
    reachable_consistent seededStream _
      (Reachable.next _ _ (Reachable.next _ _ (Reachable.next _ _ Reachable.init (by decide))
        trivial) trivial)⟩

/-- Every reachable state meets the precondition of the repopulation contract: identities in
the scene are older than the next allocation and every particle is in the scene exactly
once. -/
theorem reachable_registered (rand : Nat → ℚ) (w : World) (h : Reachable rand w) :
    FreshIds w ∧ Registered w := by
  induction h with
  | init =>
    have hs : startup rand = grown 0.05 100 (sceneSetup rand) := by
      unfold startup populateInitial
      rw [forLoop_eq_iterate, iterate_createSnowflake]
      rfl
    have hf : FreshIds (sceneSetup rand) := by
      intro i hi
      simp only [sceneSetup, List.mem_cons, List.mem_singleton, List.not_mem_nil, or_false] at hi
      show i < 3
      omega
    have hr : Registered (sceneSetup rand) := by
      intro m hm
      cases hm
    rw [hs]
    exact ⟨grown_fresh _ _ _ hf, grown_registered _ _ _ hf hr⟩
  | next w e _ _ ih =>
    have hclean : ∀ o : Options, FreshIds (clearSnowflakes { w with options := o }) ∧
        Registered (clearSnowflakes { w with options := o }) := by
      intro o
      have hle : ∀ m ∈ ({ w with options := o } : World).snowflakes,
          ({ w with options := o } : World).children.count m.id ≤ 1 :=
        fun m hm => le_of_eq (ih.2 m hm)
      constructor
      · rw [clearSnowflakes_eq _ hle]
        intro i hi
        exact ih.1 i (List.mem_of_mem_filter hi)
      · intro m hm
        rw [(clearSnowflakes_fields _).1] at hm
        cases hm
    cases e with
    | setCount n =>
      simp only [step]
      rw [updateSnowflakeCount_eq]
      exact ⟨grown_fresh _ _ _ (hclean _).1, grown_registered _ _ _ (hclean _).1 (hclean _).2⟩
    | setSize s =>
      simp only [step]
      rw [snowflakeSizeOnChange_eq]
      exact ⟨grown_fresh _ _ _ (hclean _).1, grown_registered _ _ _ (hclean _).1 (hclean _).2⟩
    | setSpeed v => exact ih
    | setAmbient v => exact ih
    | setDirectional v => exact ih
    | setShadows b =>
      refine ⟨ih.1, ?_⟩
      intro m hm
      simp only [step, shadowsEnabledOnChange, List.mem_map] at hm
      obtain ⟨m0, hm0, rfl⟩ := hm
      exact ih.2 m0 hm0
    | modelLoaded =>
      constructor
      · intro i hi
        simp only [step, sceneAdd, List.mem_append, List.mem_singleton] at hi
        show i < w.nextId + 1
        rcases hi with hi | hi
        · have := ih.1 i hi
          omega
        · omega
      · intro m hm
        have h1 := ih.2 m hm
        have hmem : m.id ∈ w.children := List.count_pos_iff.mp (by omega)
        have hlt := ih.1 _ hmem
        show List.count m.id (w.children ++ [w.nextId]) = 1
        rw [List.count_append, h1, List.count_singleton]
        have : (w.nextId == m.id) = false := by
          rw [beq_eq_false_iff_ne]
          omega
        simp [this]
    | tick =>
      refine ⟨ih.1, ?_⟩
      intro m hm
      obtain ⟨m0, hm0, c0, rfl⟩ := mem_fallAll hm
      rw [(fall_radius _ _ _ _).2]
      exact ih.2 m0 hm0

end Snow
